import Mathlib

/-!
Verification of the Schema Validation & Issue-Aggregation Engine
(`src/validator.py` together with `validate_schema_structure` from
`src/utils.py`).

The embedding models the Python runtime values the validator manipulates
(JSON-compatible data: `None`, booleans, integers, floats, strings, lists
and string-keyed dicts) together with the exact dynamic semantics the code
relies on: truthiness, comparison against `0`, the membership operator
`in` (which raises `TypeError` on numbers, booleans and `None`),
subscripting, and `dict.get`.  Fallible code is modelled in
`Except PyErr`.  Floats are modelled as rationals: the validator only
compares them and renders them into messages, it performs no
floating-point arithmetic whose rounding could be observed.
-/

/-- A Python runtime value of the JSON-compatible shapes the validator
handles.  Booleans are kept distinct from integers (as in Python) but the
`isinstance(_, int)` test below treats them as integers, exactly as Python
does. -/
inductive PyVal where
  | none
  | bool (b : Bool)
  | int (n : Int)
  | float (q : ℚ)
  | str (s : String)
  | list (xs : List PyVal)
  | dict (kvs : List (String × PyVal))

/-- Python truthiness (`bool(v)`). -/
def PyVal.truthy : PyVal → Bool
  | .none => false
  | .bool b => b
  | .int n => n != 0
  | .float q => q != 0
  | .str s => s != ""
  | .list xs => !xs.isEmpty
  | .dict kvs => !kvs.isEmpty

/-- Python `v == 0`: true for the integer `0`, the float `0.0` and the
boolean `False` (which equals `0` in Python); false for every other
value. -/
def PyVal.eq_zero : PyVal → Bool
  | .bool b => !b
  | .int n => n == 0
  | .float q => q == 0
  | _ => false

/-- Python `v is None`. -/
def PyVal.is_none : PyVal → Bool
  | .none => true
  | _ => false

/-- Python `type(v).__name__`. -/
def PyVal.type_name : PyVal → String
  | .none => "NoneType"
  | .bool _ => "bool"
  | .int _ => "int"
  | .float _ => "float"
  | .str _ => "str"
  | .list _ => "list"
  | .dict _ => "dict"

/-- Python `isinstance(v, (int, float))`.  Booleans are instances of
`int` in Python, so they pass this test. -/
def PyVal.is_numeric_instance : PyVal → Bool
  | .int _ => true
  | .float _ => true
  | .bool _ => true
  | _ => false

/-- Python `isinstance(v, (dict, list))`. -/
def PyVal.is_container : PyVal → Bool
  | .dict _ => true
  | .list _ => true
  | _ => false

/-- Python `isinstance(v, dict)`. -/
def PyVal.is_dict : PyVal → Bool
  | .dict _ => true
  | _ => false

/-- Python exceptions the validator's code can actually raise. -/
inductive PyErr where
  | typeError
  | attributeError
  | keyError
deriving Repr, DecidableEq

/-- Whether `needle` is a leading segment of `hay` (character lists). -/
def chars_le : List Char → List Char → Bool
  | [], _ => true
  | _ :: _, [] => false
  | a :: as, b :: bs => a == b && chars_le as bs

/-- Whether `needle` occurs contiguously inside `hay` (character lists):
the semantics of Python's `in` on strings. -/
def chars_sub (needle : List Char) : List Char → Bool
  | [] => needle.isEmpty
  | b :: bs => chars_le needle (b :: bs) || chars_sub needle bs

/-- Python `x == key` for a string `key`, as evaluated element-wise by
list membership: only an equal string compares equal; numbers, booleans,
`None`, lists and dicts never equal a string. -/
def py_eq_str (x : PyVal) (key : String) : Bool :=
  match x with
  | .str s => s == key
  | _ => false

/-- Python `key in v` for a string `key`: key lookup on dicts, element
equality on lists, substring containment on strings; `TypeError` on
numbers, booleans and `None`. -/
def pyContains (v : PyVal) (key : String) : Except PyErr Bool :=
  match v with
  | .dict kvs => .ok (kvs.any (fun kv => kv.1 == key))
  | .list xs => .ok (xs.any (fun x => py_eq_str x key))
  | .str s => .ok (chars_sub key.toList s.toList)
  | _ => .error .typeError

/-- First binding of `key` in an association list (Python dicts have
unique keys, and lookup returns the stored value). -/
def assoc_lookup (kvs : List (String × PyVal)) (key : String) : Option PyVal :=
  (kvs.find? (fun kv => kv.1 == key)).map (fun kv => kv.2)

/-- Python `v[key]` for a string `key`: dict lookup (`KeyError` when the
key is absent); `TypeError` on every other type, including lists and
strings, whose subscripts must be integers. -/
def pyGetItem (v : PyVal) (key : String) : Except PyErr PyVal :=
  match v with
  | .dict kvs =>
      match assoc_lookup kvs key with
      | some x => .ok x
      | Option.none => .error .keyError
  | _ => .error .typeError

/-- Python `v.get(key)`: defined only on dicts (`AttributeError`
otherwise); returns `none` when the key is absent. -/
def pyDictGet (v : PyVal) (key : String) : Except PyErr (Option PyVal) :=
  match v with
  | .dict kvs => .ok (assoc_lookup kvs key)
  | _ => .error .attributeError

/-- Left-pads a digit string with zeros up to width `k`. -/
def pad_zeros (s : String) (k : Nat) : String :=
  if s.length < k then String.mk (List.replicate (k - s.length) '0') ++ s else s

/-- Model-level rendering of Python `str` on a float, exact for
terminating decimals (`0.5`, `12345.5`, `3.0`, ...).  Python renders the
shortest decimal that round-trips through the binary float; the validator
only embeds the result in human-readable messages.  A rational with no
terminating decimal expansion (impossible for a value that came from a
Python float) is rendered as a fraction. -/
def py_float_str (q : ℚ) : String :=
  if q.den == 1 then toString q.num ++ ".0"
  else
    match (List.range 30).find? (fun k => (q * (10 : ℚ) ^ k).den == 1) with
    | some k =>
        let n := (q * (10 : ℚ) ^ k).num
        let sign := if n < 0 then "-" else ""
        let a := n.natAbs
        sign ++ toString (a / 10 ^ k) ++ "." ++ pad_zeros (toString (a % 10 ^ k)) k
    | Option.none => toString q.num ++ "/" ++ toString q.den

mutual

/-- Python `repr` of a value (used by `str` on lists and dicts).  String
escaping inside nested reprs is not modelled; the validator only embeds
these renderings in messages. -/
def py_repr : PyVal → String
  | .none => "None"
  | .bool b => if b then "True" else "False"
  | .int n => toString n
  | .float q => py_float_str q
  | .str s => "\x27" ++ s ++ "\x27"
  | .list xs => "[" ++ py_repr_list xs ++ "]"
  | .dict kvs => "\x7b" ++ py_repr_dict kvs ++ "\x7d"

/-- Comma-joined reprs of a list's elements. -/
def py_repr_list : List PyVal → String
  | [] => ""
  | [x] => py_repr x
  | x :: y :: rest => py_repr x ++ ", " ++ py_repr_list (y :: rest)

/-- Comma-joined reprs of a dict's entries. -/
def py_repr_dict : List (String × PyVal) → String
  | [] => ""
  | [(k, v)] => "\x27" ++ k ++ "\x27: " ++ py_repr v
  | (k, v) :: e :: rest =>
      "\x27" ++ k ++ "\x27: " ++ py_repr v ++ ", " ++ py_repr_dict (e :: rest)

end

/-- Python `str(v)`: a string is returned unchanged, everything else is
rendered as by `repr`. -/
def py_str : PyVal → String
  | .str s => s
  | v => py_repr v

/-- Shape of a full match of the pattern body `\d\x7b4\x7d-\d\x7b2\x7d-\d\x7b2\x7d`
(four digits, dash, two digits, dash, two digits).  Digits are modelled
as ASCII digits (Python's `\d` additionally matches other Unicode decimal
digits, which is immaterial to the properties proved here). -/
def date_shape : List Char → Bool
  | [y1, y2, y3, y4, h1, m1, m2, h2, d1, d2] =>
      y1.isDigit && y2.isDigit && y3.isDigit && y4.isDigit &&
      h1 == '-' && m1.isDigit && m2.isDigit && h2 == '-' &&
      d1.isDigit && d2.isDigit
  | _ => false

/-- Shape of a full match of the pattern body `\d\x7b5\x7d(-\d\x7b4\x7d)?`
(US ZIP: five digits, optionally dash and four more). -/
def zip_shape : List Char → Bool
  | [a, b, c, d, e] => a.isDigit && b.isDigit && c.isDigit && d.isDigit && e.isDigit
  | [a, b, c, d, e, h, f, g, i, j] =>
      a.isDigit && b.isDigit && c.isDigit && d.isDigit && e.isDigit &&
      h == '-' && f.isDigit && g.isDigit && i.isDigit && j.isDigit
  | _ => false

/-- Python `re.match` of a `^body$` pattern against a whole string: `$`
matches at the end of the string or just before a single trailing
newline. -/
def re_full_match (shape : List Char → Bool) (s : String) : Bool :=
  let cs := s.toList
  shape cs || (cs.getLast? == some '\n' && shape cs.dropLast)

/-- The method `Validator._is_valid_date_format`: `re.match` raises
`TypeError` unless handed a string. -/
def is_valid_date_format (v : PyVal) : Except PyErr Bool :=
  match v with
  | .str s => .ok (re_full_match date_shape s)
  | _ => .error .typeError

/-- The method `Validator._is_valid_zip`: the code applies `str(...)` to
its argument first, so it accepts any value without raising. -/
def is_valid_zip (v : PyVal) : Bool :=
  re_full_match zip_shape (py_str v)

/-- An issue record.  Python represents issues as dicts; the engine and
its statistics pass only ever read the five keys below, each of which may
be absent. -/
structure Issue where
  type : Option String := Option.none
  field : Option String := Option.none
  message : Option String := Option.none
  severity : Option String := Option.none
  confidence : Option ℚ := Option.none
deriving Repr, DecidableEq

/-- A field-level metadata entry: `has_value` is the truthiness of
`meta.get("has_value")` (an absent key reads as `None`, hence false), and
`confidence` is `meta.get("confidence", 0.0)`. -/
structure FieldMeta where
  has_value : Bool := false
  confidence : ℚ := 0
deriving Repr, DecidableEq

/-- The statistics dictionary produced by `Validator._calculate_statistics`.
The two histograms are insertion-ordered key/count lists, mirroring
Python dicts. -/
structure Statistics where
  total_fields : Nat
  populated_fields : Nat
  empty_fields : Nat
  population_rate : ℚ
  total_issues : Nat
  issue_types : List (String × Nat)
  severity_counts : List (String × Nat)
  average_confidence : ℚ
deriving Repr, DecidableEq

/-- The dictionary returned by `Validator.validate`. -/
structure ValidationReport where
  is_valid : Bool
  validation_errors : List Issue
  all_issues : List Issue
  statistics : Statistics
deriving Repr, DecidableEq

/-- The configuration value the validator reads:
`ValidationConfig.require_manual_review_threshold`, default `0.5` in
`src/config.py`. -/
def require_manual_review_threshold : ℚ := 1 / 2

/-- The issue `_validate_types` appends for a non-numeric, non-null
`annual_income`. -/
def income_type_error (v : PyVal) : Issue :=
  { type := some "type_error",
    field := some "employment_data.client_1.annual_income",
    message := some ("annual_income must be numeric, got " ++ v.type_name),
    severity := some "high" }

/-- The issue `_validate_types` appends when `non_retirement_assets` is
not a list. -/
def assets_type_error (v : PyVal) : Issue :=
  { type := some "type_error",
    field := some "non_retirement_assets",
    message := some ("non_retirement_assets must be a list, got " ++ v.type_name),
    severity := some "high" }

/-- First check of `Validator._validate_types`: guard
`if "employment_data" in schema and "client_1" in schema["employment_data"]`,
then `schema["employment_data"]["client_1"].get("annual_income")`, then
`income is not None and not isinstance(income, (int, float))`. -/
def income_rule (schema : PyVal) : Except PyErr (List Issue) :=
  match pyContains schema "employment_data" with
  | .error e => .error e
  | .ok false => .ok []
  | .ok true =>
    match pyGetItem schema "employment_data" with
    | .error e => .error e
    | .ok ed =>
      match pyContains ed "client_1" with
      | .error e => .error e
      | .ok false => .ok []
      | .ok true =>
        match pyGetItem ed "client_1" with
        | .error e => .error e
        | .ok cl =>
          match pyDictGet cl "annual_income" with
          | .error e => .error e
          | .ok income? =>
            let income := income?.getD PyVal.none
            if income.is_none then .ok []
            else if income.is_numeric_instance then .ok []
            else .ok [income_type_error income]

/-- Second check of `_validate_types`: `non_retirement_assets`, when
present, must be a list. -/
def assets_rule (schema : PyVal) : Except PyErr (List Issue) :=
  match pyContains schema "non_retirement_assets" with
  | .error e => .error e
  | .ok false => .ok []
  | .ok true =>
    match pyGetItem schema "non_retirement_assets" with
    | .error e => .error e
    | .ok v =>
      match v with
      | .list _ => .ok []
      | _ => .ok [assets_type_error v]

/-- `Validator._validate_types`: both checks in source order, their
errors concatenated. -/
def validate_types (schema : PyVal) : Except PyErr (List Issue) :=
  match income_rule schema with
  | .error e => .error e
  | .ok e1 =>
    match assets_rule schema with
    | .error e => .error e
    | .ok e2 => .ok (e1 ++ e2)

/-- The issue `_validate_formats` appends for a malformed date of
birth. -/
def dob_format_error (dob : PyVal) : Issue :=
  { type := some "format_error",
    field := some "general_information.client_1.dob",
    message := some ("Invalid date format: " ++ py_str dob ++ " (expected YYYY-MM-DD)"),
    severity := some "medium" }

/-- The issue `_validate_formats` appends for a malformed ZIP code. -/
def zip_format_error (z : PyVal) : Issue :=
  { type := some "format_error",
    field := some "general_information.home_address.zip",
    message := some ("Invalid ZIP code format: " ++ py_str z),
    severity := some "low" }

/-- First check of `Validator._validate_formats`: guard
`if "general_information" in schema and "client_1" in schema["general_information"]`,
then `schema["general_information"]["client_1"].get("dob")`, then
`if dob and not self._is_valid_date_format(dob)`. -/
def dob_rule (schema : PyVal) : Except PyErr (List Issue) :=
  match pyContains schema "general_information" with
  | .error e => .error e
  | .ok false => .ok []
  | .ok true =>
    match pyGetItem schema "general_information" with
    | .error e => .error e
    | .ok gi =>
      match pyContains gi "client_1" with
      | .error e => .error e
      | .ok false => .ok []
      | .ok true =>
        match pyGetItem gi "client_1" with
        | .error e => .error e
        | .ok cl =>
          match pyDictGet cl "dob" with
          | .error e => .error e
          | .ok dob? =>
            let dob := dob?.getD PyVal.none
            if dob.truthy then
              match is_valid_date_format dob with
              | .error e => .error e
              | .ok true => .ok []
              | .ok false => .ok [dob_format_error dob]
            else .ok []

/-- Second check of `_validate_formats`:
`address = schema["general_information"].get("home_address", \x7b\x7d)`, then
`if isinstance(address, dict) and "zip" in address`, then
`if zip_code and not self._is_valid_zip(zip_code)`. -/
def zip_rule (schema : PyVal) : Except PyErr (List Issue) :=
  match pyContains schema "general_information" with
  | .error e => .error e
  | .ok false => .ok []
  | .ok true =>
    match pyGetItem schema "general_information" with
    | .error e => .error e
    | .ok gi =>
      match pyDictGet gi "home_address" with
      | .error e => .error e
      | .ok addr? =>
        match addr?.getD (PyVal.dict []) with
        | .dict akvs =>
          match assoc_lookup akvs "zip" with
          | some zip_code =>
              if zip_code.truthy && !(is_valid_zip zip_code)
              then .ok [zip_format_error zip_code]
              else .ok []
          | Option.none => .ok []
        | _ => .ok []

/-- `Validator._validate_formats`: both checks in source order, their
errors concatenated. -/
def validate_formats (schema : PyVal) : Except PyErr (List Issue) :=
  match dob_rule schema with
  | .error e => .error e
  | .ok e1 =>
    match zip_rule schema with
    | .error e => .error e
    | .ok e2 => .ok (e1 ++ e2)

/-- Round half to even, the rounding Python's `.2f` formatting applies
to the scaled value (rounding of the underlying binary float is not
modelled). -/
def round_half_even (q : ℚ) : ℤ :=
  let f := ⌊q⌋
  let r := q - f
  if r < 1 / 2 then f
  else if 1 / 2 < r then f + 1
  else if f % 2 = 0 then f else f + 1

/-- Python formatting of a number with two decimal places (`.2f`). -/
def fmt_two_decimals (c : ℚ) : String :=
  let n := round_half_even (c * 100)
  let sign := if n < 0 then "-" else ""
  let a := n.natAbs
  sign ++ toString (a / 100) ++ "." ++ pad_zeros (toString (a % 100)) 2

/-- The issue `_validate_confidence` appends for a present field whose
confidence is below the threshold.  The message renders the confidence
with two decimals and the threshold with `str`. -/
def low_confidence_issue (threshold c : ℚ) (field_path : String) : Issue :=
  { type := some "low_confidence",
    field := some field_path,
    message := some ("Confidence " ++ fmt_two_decimals c ++
                     " below threshold " ++ py_float_str threshold),
    severity := some "medium",
    confidence := some c }

/-- `Validator._validate_confidence`: one pass over the metadata mapping
in insertion order, appending an issue whenever
`confidence < threshold and meta.get("has_value")`. -/
def validate_confidence (threshold : ℚ) (metadata : List (String × FieldMeta)) :
    List Issue :=
  match metadata with
  | [] => []
  | (field_path, meta) :: rest =>
      (if meta.confidence < threshold ∧ meta.has_value = true
       then [low_confidence_issue threshold meta.confidence field_path]
       else []) ++ validate_confidence threshold rest

/-- Path extension used by `_check_completeness`:
`f"\x7bpath\x7d.\x7bkey\x7d" if path else key`. -/
def extend_path (path key : String) : String :=
  if path == "" then key else path ++ "." ++ key

/-- The `missing_field` issue of `_check_completeness`. -/
def missing_field_issue (field_path : String) : Issue :=
  { type := some "missing_field",
    field := some field_path,
    message := some ("Field \x27" ++ field_path ++ "\x27 is missing"),
    severity := some "medium" }

/-- The `empty_field` issue of `_check_completeness`. -/
def empty_field_issue (field_path : String) : Issue :=
  { type := some "empty_field",
    field := some field_path,
    message := some ("Field \x27" ++ field_path ++ "\x27 is empty"),
    severity := some "low" }

/-- The emptiness test of `_check_completeness`:
`if not value and value != 0` (the source comments that 0 is valid). -/
def is_empty_value (v : PyVal) : Bool :=
  !v.truthy && !v.eq_zero

mutual

/-- The loop of `check_node` over `target_node.items()` in insertion
order, concatenating each key's issues.  An exception raised at one key
propagates before later keys are visited. -/
def check_fields (pop : PyVal) (kvs : List (String × PyVal)) (path : String) :
    Except PyErr (List Issue) :=
  match kvs with
  | [] => .ok []
  | (key, target_value) :: rest =>
      match check_field pop key target_value path with
      | .error e => .error e
      | .ok head =>
          match check_fields pop rest path with
          | .error e => .error e
          | .ok tail => .ok (head ++ tail)
termination_by structural kvs

/-- The loop body of `check_node` for one target key: the membership
test `key not in pop_node` (which raises `TypeError` when `pop_node` is
a number, boolean or `None`), then either a `missing_field` issue, the
leaf emptiness check, or recursion into the populated value.  The source
re-tests `key in pop_node` before recursing; that test is necessarily
true at that point and is not repeated here.  The recursive call to
`check_node` is inlined as its one-line match so that the recursion is
structural; `check_node` itself is defined just below. -/
def check_field (pop : PyVal) (key : String) (target_value : PyVal) (path : String) :
    Except PyErr (List Issue) :=
  match pyContains pop key with
  | .error e => .error e
  | .ok false => .ok [missing_field_issue (extend_path path key)]
  | .ok true =>
      if target_value.is_container then
        match pyGetItem pop key with
        | .error e => .error e
        | .ok v =>
            match target_value with
            | .dict tkvs => check_fields v tkvs (extend_path path key)
            | _ => .ok []
      else
        match pyGetItem pop key with
        | .error e => .error e
        | .ok v =>
            .ok (if is_empty_value v then [empty_field_issue (extend_path path key)] else [])
termination_by structural target_value

end

/-- The inner function `check_node` of `Validator._check_completeness`:
issues are produced only when the target node is a dict. -/
def check_node (pop target : PyVal) (path : String) : Except PyErr (List Issue) :=
  match target with
  | .dict kvs => check_fields pop kvs path
  | _ => .ok []

/-- `Validator._check_completeness`: `check_node` from the roots with
the empty path. -/
def check_completeness (populated_schema target_schema : PyVal) :
    Except PyErr (List Issue) :=
  check_node populated_schema target_schema ""

mutual

/-- The inner function `_validate_recursive` of
`utils.validate_schema_structure`: a dict-shaped target requires a
dict-shaped data node, a list-shaped target requires a list-shaped data
node, scalar targets are not checked; target keys missing from the data
are skipped (deferred to the completeness scan). -/
def validate_recursive (data_node schema_node : PyVal) (path : String) : List String :=
  match schema_node with
  | .dict kvs =>
      match data_node with
      | .dict dkvs => validate_recursive_fields dkvs kvs path
      | _ => [path ++ ": Expected dict, got " ++ data_node.type_name]
  | .list _ =>
      match data_node with
      | .list _ => []
      | _ => [path ++ ": Expected list, got " ++ data_node.type_name]
  | _ => []
termination_by structural schema_node

/-- The loop of `_validate_recursive` over `schema_node.items()`:
recurse into each key also present in the data. -/
def validate_recursive_fields (dkvs : List (String × PyVal))
    (kvs : List (String × PyVal)) (path : String) : List String :=
  match kvs with
  | [] => []
  | (key, value) :: rest =>
      (match assoc_lookup dkvs key with
       | some dv => validate_recursive dv value (path ++ "." ++ key)
       | Option.none => []) ++ validate_recursive_fields dkvs rest path
termination_by structural kvs

end

/-- `utils.validate_schema_structure`: the recursion starts at path
`"root"` and returns plain message strings. -/
def validate_schema_structure (data schema : PyVal) : List String :=
  validate_recursive data schema "root"

/-- One `counts[key] = counts.get(key, 0) + 1` step on an
insertion-ordered histogram: an existing key is incremented in place, a
new key is appended. -/
def bump (m : List (String × Nat)) (key : String) : List (String × Nat) :=
  match m with
  | [] => [(key, 1)]
  | (k, n) :: rest => if k == key then (k, n + 1) :: rest else (k, n) :: bump rest key

/-- The issue loop of `_calculate_statistics`, threading the type and
severity histograms through `all_issues` in order. -/
def issue_histograms (issues : List Issue)
    (acc : List (String × Nat) × List (String × Nat)) :
    List (String × Nat) × List (String × Nat) :=
  match issues with
  | [] => acc
  | issue :: rest =>
      issue_histograms rest
        (bump acc.1 (issue.type.getD "unknown"), bump acc.2 (issue.severity.getD "medium"))

/-- `Validator._calculate_statistics`.  `severity_counts` is seeded with
the three severities so all three keys are present even at zero; an
issue lacking a type or severity is bucketed as "unknown" / "medium";
`population_rate` and `average_confidence` fall back to 0.0 on empty
metadata instead of dividing by zero. -/
def calculate_statistics (metadata : List (String × FieldMeta)) (all_issues : List Issue) :
    Statistics :=
  let total_fields := metadata.length
  let populated_fields := (metadata.filter (fun pm => pm.2.has_value)).length
  let hists := issue_histograms all_issues ([], [("high", 0), ("medium", 0), ("low", 0)])
  let confidences := metadata.map (fun pm => pm.2.confidence)
  { total_fields := total_fields,
    populated_fields := populated_fields,
    empty_fields := total_fields - populated_fields,
    population_rate :=
      if 0 < total_fields then (populated_fields : ℚ) / (total_fields : ℚ) else 0,
    total_issues := all_issues.length,
    issue_types := hists.1,
    severity_counts := hists.2,
    average_confidence :=
      if confidences.isEmpty then 0 else confidences.sum / (confidences.length : ℚ) }

/-- The wrapping of a structural message into an issue dict in
`Validator.validate`: only the `type` and `message` keys are set. -/
def structure_error_issue (err : String) : Issue :=
  { type := some "structure_error", message := some err }

/-- `Validator.validate`: the report assembler.  The passes run in
source order — structure comparison, type rules, format rules,
confidence flagging, completeness scan — so an exception raised by a
fallible pass propagates before the later passes run; `all_issues` is
the concatenation `existing_issues + validation_errors +
additional_issues`, and `is_valid` is `len(validation_errors) == 0`. -/
def validate (populated_schema target_schema : PyVal)
    (metadata : List (String × FieldMeta)) (existing_issues : List Issue) :
    Except PyErr ValidationReport :=
  let structure_errors := validate_schema_structure populated_schema target_schema
  match validate_types populated_schema with
  | .error e => .error e
  | .ok type_errors =>
    match validate_formats populated_schema with
    | .error e => .error e
    | .ok format_errors =>
      let validation_errors :=
        structure_errors.map structure_error_issue ++ type_errors ++ format_errors
      let confidence_issues :=
        validate_confidence require_manual_review_threshold metadata
      match check_completeness populated_schema target_schema with
      | .error e => .error e
      | .ok completeness_issues =>
        let additional_issues := confidence_issues ++ completeness_issues
        let all_issues := existing_issues ++ validation_errors ++ additional_issues
        .ok { is_valid := validation_errors.isEmpty,
              validation_errors := validation_errors,
              all_issues := all_issues,
              statistics := calculate_statistics metadata all_issues }

/-- Value of a key in an insertion-ordered histogram, zero when the key
is absent. -/
def hist_val (m : List (String × Nat)) (key : String) : Nat :=
  ((m.find? (fun kv => kv.1 == key)).map (fun kv => kv.2)).getD 0

/-- Sum of all counts in a histogram. -/
def hist_total (m : List (String × Nat)) : Nat :=
  (m.map (fun kv => kv.2)).sum

theorem validate_ok_iff (p t : PyVal) (m : List (String × FieldMeta)) (e : List Issue)
    (r : ValidationReport) :
    validate p t m e = .ok r ↔
      ∃ ty fm ci, validate_types p = .ok ty ∧ validate_formats p = .ok fm ∧
        check_completeness p t = .ok ci ∧
        r = { is_valid :=
                ((validate_schema_structure p t).map structure_error_issue ++ ty ++ fm).isEmpty,
              validation_errors :=
                (validate_schema_structure p t).map structure_error_issue ++ ty ++ fm,
              all_issues :=
                e ++ ((validate_schema_structure p t).map structure_error_issue ++ ty ++ fm) ++
                  (validate_confidence require_manual_review_threshold m ++ ci),
              statistics :=
                calculate_statistics m
                  (e ++ ((validate_schema_structure p t).map structure_error_issue ++ ty ++ fm) ++
                    (validate_confidence require_manual_review_threshold m ++ ci)) } := by
  unfold validate
  cases validate_types p <;> simp
  cases validate_formats p <;> simp
  cases check_completeness p t <;> simp [eq_comm]

theorem assets_rule_cases (schema : PyVal) (l : List Issue) (h : assets_rule schema = .ok l) :
    l = [] ∨ ∃ v, l = [assets_type_error v] := by
  unfold assets_rule at h
  repeat' split at h
  all_goals first
    | (cases h; exact Or.inl rfl)
    | (cases h; exact Or.inr ⟨_, rfl⟩)
    | (cases h)

theorem zip_rule_cases (schema : PyVal) (l : List Issue) (h : zip_rule schema = .ok l) :
    l = [] ∨ ∃ v, l = [zip_format_error v] := by
  unfold zip_rule at h
  repeat' split at h
  all_goals first
    | (cases h; exact Or.inl rfl)
    | (cases h; exact Or.inr ⟨_, rfl⟩)
    | (cases h)

theorem hist_val_bump (m : List (String × Nat)) (key key2 : String) :
    hist_val (bump m key) key2 = hist_val m key2 + (if key = key2 then 1 else 0) := by
  induction m with
  | nil =>
      by_cases h : key = key2
      · have hb : (key == key2) = true := beq_iff_eq.mpr h
        simp [bump, hist_val, List.find?, hb, h]
      · have hb : (key == key2) = false := beq_eq_false_iff_ne.mpr h
        simp [bump, hist_val, List.find?, hb, h]
  | cons hd tl ih =>
      obtain ⟨k, n⟩ := hd
      by_cases h1 : k = key
      · have hb1 : (k == key) = true := beq_iff_eq.mpr h1
        have hbump : bump ((k, n) :: tl) key = (k, n + 1) :: tl := by simp [bump, hb1]
        rw [hbump]
        by_cases h2 : k = key2
        · have hb2 : (k == key2) = true := beq_iff_eq.mpr h2
          have hk : key = key2 := h1 ▸ h2
          simp [hist_val, List.find?, hb2, hk]
        · have hb2 : (k == key2) = false := beq_eq_false_iff_ne.mpr h2
          have hk : ¬ key = key2 := fun hh => h2 (h1.trans hh)
          simp [hist_val, List.find?, hb2, hk]
      · have hb1 : (k == key) = false := beq_eq_false_iff_ne.mpr h1
        have hbump : bump ((k, n) :: tl) key = (k, n) :: bump tl key := by simp [bump, hb1]
        rw [hbump]
        by_cases h2 : k = key2
        · have hb2 : (k == key2) = true := beq_iff_eq.mpr h2
          have hk : ¬ key = key2 := fun hh => h1 (hh.trans h2.symm).symm
          simp [hist_val, List.find?, hb2, hk]
        · have hb2 : (k == key2) = false := beq_eq_false_iff_ne.mpr h2
          simp only [hist_val, List.find?, hb2] at ih ⊢
          exact ih

theorem hist_total_bump (m : List (String × Nat)) (key : String) :
    hist_total (bump m key) = hist_total m + 1 := by
  induction m with
  | nil => simp [bump, hist_total]
  | cons hd tl ih =>
      obtain ⟨k, n⟩ := hd
      by_cases h1 : k = key <;>
        simp [bump, hist_total, h1] <;>
        simp [hist_total] at ih <;> omega

theorem hist_keys_bump (m : List (String × Nat)) (key k : String)
    (h : k ∈ m.map (fun kv => kv.1)) : k ∈ (bump m key).map (fun kv => kv.1) := by
  induction m with
  | nil => simp at h
  | cons hd tl ih =>
      obtain ⟨k1, n⟩ := hd
      by_cases h1 : k1 = key
      · have hb : bump ((k1, n) :: tl) key = (k1, n + 1) :: tl := by simp [bump, h1]
        rw [hb]
        simpa using h
      · have hb : bump ((k1, n) :: tl) key = (k1, n) :: bump tl key := by simp [bump, h1]
        rw [hb]
        simp only [List.map_cons, List.mem_cons] at h ⊢
        rcases h with h | h
        · exact Or.inl h
        · exact Or.inr (ih h)

theorem issue_histograms_snd_val (issues : List Issue)
    (acc : List (String × Nat) × List (String × Nat)) (k : String) :
    hist_val (issue_histograms issues acc).2 k =
      hist_val acc.2 k +
        (issues.filter (fun i => i.severity.getD "medium" == k)).length := by
  induction issues generalizing acc with
  | nil => simp [issue_histograms]
  | cons i rest ih =>
      simp only [issue_histograms]
      rw [ih]
      simp only [hist_val_bump]
      by_cases h : i.severity.getD "medium" = k
      · have hb : (i.severity.getD "medium" == k) = true := beq_iff_eq.mpr h
        simp [List.filter, hb, h]
        omega
      · have hb : (i.severity.getD "medium" == k) = false := beq_eq_false_iff_ne.mpr h
        simp [List.filter, hb, h]

theorem issue_histograms_snd_total (issues : List Issue)
    (acc : List (String × Nat) × List (String × Nat)) :
    hist_total (issue_histograms issues acc).2 = hist_total acc.2 + issues.length := by
  induction issues generalizing acc with
  | nil => simp [issue_histograms]
  | cons i rest ih =>
      simp only [issue_histograms]
      rw [ih]
      simp [hist_total_bump]
      omega

theorem issue_histograms_snd_keys (issues : List Issue)
    (acc : List (String × Nat) × List (String × Nat)) (k : String)
    (h : k ∈ acc.2.map (fun kv => kv.1)) :
    k ∈ (issue_histograms issues acc).2.map (fun kv => kv.1) := by
  induction issues generalizing acc with
  | nil => simpa [issue_histograms] using h
  | cons i rest ih =>
      simp only [issue_histograms]
      exact ih _ (hist_keys_bump _ _ _ h)

theorem income_rule_eval (schema ed cl v : PyVal)
    (h1 : pyContains schema "employment_data" = .ok true)
    (h2 : pyGetItem schema "employment_data" = .ok ed)
    (h3 : pyContains ed "client_1" = .ok true)
    (h4 : pyGetItem ed "client_1" = .ok cl)
    (h5 : pyDictGet cl "annual_income" = .ok (some v)) :
    income_rule schema =
      .ok (if v.is_none then []
           else if v.is_numeric_instance then [] else [income_type_error v]) := by
  unfold income_rule
  simp only [h1, h2, h3, h4, h5, Option.getD_some]
  by_cases hn : v.is_none = true
  all_goals simp only [hn, if_true, if_false]
  all_goals by_cases hm : v.is_numeric_instance = true <;> simp [hm]

theorem income_rule_absent (schema : PyVal)
    (h1 : pyContains schema "employment_data" = .ok false) :
    income_rule schema = .ok [] := by
  unfold income_rule
  simp only [h1]

theorem dob_rule_eval (schema gi cl : PyVal) (s : String)
    (h1 : pyContains schema "general_information" = .ok true)
    (h2 : pyGetItem schema "general_information" = .ok gi)
    (h3 : pyContains gi "client_1" = .ok true)
    (h4 : pyGetItem gi "client_1" = .ok cl)
    (h5 : pyDictGet cl "dob" = .ok (some (.str s)))
    (h6 : s ≠ "") :
    dob_rule schema =
      .ok (if re_full_match date_shape s then [] else [dob_format_error (.str s)]) := by
  unfold dob_rule
  simp only [h1, h2, h3, h4, h5, Option.getD_some]
  have ht : PyVal.truthy (.str s) = true := by
    simp [PyVal.truthy, h6]
  rw [ht]
  simp only [is_valid_date_format]
  cases hm : re_full_match date_shape s <;> simp [hm]

theorem dob_rule_absent (schema : PyVal)
    (h1 : pyContains schema "general_information" = .ok false) :
    dob_rule schema = .ok [] := by
  unfold dob_rule
  simp only [h1]

theorem zip_rule_absent (schema : PyVal)
    (h1 : pyContains schema "general_information" = .ok false) :
    zip_rule schema = .ok [] := by
  unfold zip_rule
  simp only [h1]

/-- C1 (counterexample): the claim that `validate` never raises — and
that the completeness scanner short-circuits gracefully when the
populated value's type disagrees with the target's container/leaf
classification — is false.  For target `a = dict` and populated `a = 5`,
the scanner evaluates `key not in 5`, which raises `TypeError` (an `int`
is not iterable), and the exception propagates out of `validate`. -/
theorem C1_counterexample :
    validate (.dict [("a", .int 5)]) (.dict [("a", .dict [("b", .int 1)])]) [] [] =
      .error .typeError := rfl

/-- C1 (amended): the completeness scanner degrades gracefully only when
the populated value still supports Python's membership test.  When the
populated value at an object-target position is a list containing none of
the target object's keys, every key is reported `missing_field` and
nothing is raised; but when the populated value there is a number (shown
for `int`; `float`, `bool` and `None` behave alike), the membership test
itself raises `TypeError`. -/
theorem C1_amended_graceful_shortcircuit :
    ∀ (xs : List PyVal) (kvs : List (String × PyVal)) (path key : String)
      (tv : PyVal) (n : ℤ),
    ((∀ kv ∈ kvs, pyContains (.list xs) kv.1 = .ok false) →
      check_node (.list xs) (.dict kvs) path =
        .ok (kvs.map (fun kv => missing_field_issue (extend_path path kv.1)))) ∧
    check_field (.int n) key tv path = .error .typeError := by
  intro xs kvs path key tv n
  refine ⟨?_, by simp [check_field, pyContains]⟩
  intro h
  show check_fields (.list xs) kvs path = _
  induction kvs with
  | nil => rfl
  | cons hd rest ih =>
      obtain ⟨k, tv2⟩ := hd
      have hk : pyContains (.list xs) k = .ok false := h (k, tv2) (List.mem_cons_self _ _)
      have hrest : ∀ kv ∈ rest, pyContains (.list xs) kv.1 = .ok false :=
        fun kv hkv => h kv (List.mem_cons_of_mem _ hkv)
      simp only [check_fields, check_field, hk]
      rw [ih hrest]
      simp

theorem C1_witness :
    pyContains (.list [.int 1, .int 2]) "b" = .ok false ∧
    check_node (.list [.int 1, .int 2]) (.dict [("b", .int 1)]) "a" =
      .ok [missing_field_issue "a.b"] := by
  refine ⟨rfl, ?_⟩
  exact (C1_amended_graceful_shortcircuit [.int 1, .int 2] [("b", .int 1)] "a" "k"
      PyVal.none 0).1
    (by
      intro kv hkv
      simp only [List.mem_singleton] at hkv
      subst hkv
      rfl)

/-- C6: for target with `a` an object and populated with `a` a list,
`validate` returns a report (with empty metadata and no pre-existing
issues) whose `validation_errors` consist of exactly one
`structure_error` whose message names the mismatch position (rendered
with the comparator's `root.` prefix, `root.a`) and the actual runtime
type found (`list`), and whose `is_valid` is false.  The only other
issue in the report is the advisory `missing_field` at `a.b` from the
completeness scan, which is not a `structure_error`. -/
theorem C6_type_mismatch_scenario :
    validate (.dict [("a", .list [.int 1, .int 2])])
        (.dict [("a", .dict [("b", .int 1)])]) [] [] =
      .ok { is_valid := false,
            validation_errors := [structure_error_issue "root.a: Expected dict, got list"],
            all_issues := [structure_error_issue "root.a: Expected dict, got list",
                           missing_field_issue "a.b"],
            statistics := { total_fields := 0, populated_fields := 0, empty_fields := 0,
                            population_rate := 0, total_issues := 2,
                            issue_types := [("structure_error", 1), ("missing_field", 1)],
                            severity_counts := [("high", 0), ("medium", 2), ("low", 0)],
                            average_confidence := 0 } } := rfl

/-- C2: a returned report's `is_valid` is true exactly when its
`validation_errors` list is empty; `validation_errors` is the
concatenation of the structural, type and format pass results computed
solely from the two documents, so the confidence metadata and the
caller-supplied issues can never affect `validation_errors` or
`is_valid` (replacing them with any other values yields a report with
the same `validation_errors` and `is_valid`). -/
theorem C2_is_valid_iff_no_validation_errors :
    ∀ (p t : PyVal) (m m2 : List (String × FieldMeta)) (e e2 : List Issue)
      (r : ValidationReport),
    validate p t m e = .ok r →
    ((r.is_valid = true ↔ r.validation_errors = []) ∧
     (∃ ty fm, validate_types p = .ok ty ∧ validate_formats p = .ok fm ∧
        r.validation_errors =
          (validate_schema_structure p t).map structure_error_issue ++ ty ++ fm) ∧
     (∃ r2, validate p t m2 e2 = .ok r2 ∧ r2.validation_errors = r.validation_errors ∧
        r2.is_valid = r.is_valid)) := by
  intro p t m m2 e e2 r h
  rw [validate_ok_iff] at h
  obtain ⟨ty, fm, ci, hty, hfm, hci, hr⟩ := h
  subst hr
  refine ⟨?_, ⟨ty, fm, hty, hfm, rfl⟩, ?_⟩
  · simp [List.isEmpty_iff]
  · exact ⟨_, (validate_ok_iff p t m2 e2 _).mpr ⟨ty, fm, ci, hty, hfm, hci, rfl⟩, rfl, rfl⟩

/-- Report produced by `validate` on two empty documents with empty
metadata and no pre-existing issues; used to witness C2. -/
def c2_report : ValidationReport :=
  { is_valid := true, validation_errors := [], all_issues := [],
    statistics := { total_fields := 0, populated_fields := 0, empty_fields := 0,
                    population_rate := 0, total_issues := 0, issue_types := [],
                    severity_counts := [("high", 0), ("medium", 0), ("low", 0)],
                    average_confidence := 0 } }

theorem C2_witness :
    validate (.dict []) (.dict []) [] [] = .ok c2_report ∧
    (c2_report.is_valid = true ↔ c2_report.validation_errors = []) :=
  ⟨rfl, (C2_is_valid_iff_no_validation_errors (.dict []) (.dict [])
    [] [] [] [] c2_report rfl).1⟩

/-- C3: a returned report's `all_issues` is exactly the caller-supplied
`existing_issues`, followed by the report's own `validation_errors`,
followed by the additional issues — the confidence pass's output
concatenated with the completeness pass's output — in that order. -/
theorem C3_all_issues_order :
    ∀ (p t : PyVal) (m : List (String × FieldMeta)) (e : List Issue)
      (r : ValidationReport),
    validate p t m e = .ok r →
    ∃ ci, check_completeness p t = .ok ci ∧
      r.all_issues =
        e ++ r.validation_errors ++
          (validate_confidence require_manual_review_threshold m ++ ci) := by
  intro p t m e r h
  rw [validate_ok_iff] at h
  obtain ⟨ty, fm, ci, hty, hfm, hci, hr⟩ := h
  subst hr
  exact ⟨ci, hci, rfl⟩

/-- Pre-existing issues supplied by the caller in the C3 witness. -/
def c3_existing : List Issue :=
  [{ type := some "llm_flag", message := some "ambiguous source text",
     severity := some "low" }]

/-- Report produced on an empty populated document against a one-key
target, with the pre-existing issue above; used to witness C3. -/
def c3_report : ValidationReport :=
  { is_valid := true, validation_errors := [],
    all_issues := c3_existing ++ [missing_field_issue "k"],
    statistics := { total_fields := 0, populated_fields := 0, empty_fields := 0,
                    population_rate := 0, total_issues := 2,
                    issue_types := [("llm_flag", 1), ("missing_field", 1)],
                    severity_counts := [("high", 0), ("medium", 1), ("low", 1)],
                    average_confidence := 0 } }

theorem C3_witness :
    validate (.dict []) (.dict [("k", .str "v")]) [] c3_existing = .ok c3_report ∧
    check_completeness (.dict []) (.dict [("k", .str "v")]) =
      .ok [missing_field_issue "k"] ∧
    c3_report.all_issues =
      c3_existing ++ c3_report.validation_errors ++
        (validate_confidence require_manual_review_threshold [] ++
          [missing_field_issue "k"]) := by
  refine ⟨rfl, rfl, ?_⟩
  obtain ⟨ci, hci, heq⟩ :=
    C3_all_issues_order (.dict []) (.dict [("k", .str "v")]) [] c3_existing c3_report rfl
  have h2 : ci = [missing_field_issue "k"] := Except.ok.inj (hci.symm.trans rfl)
  rw [h2] at heq
  exact heq

/-- C4: the completeness scanner's per-key classification.  A key absent
from the populated node yields exactly one `missing_field` issue of
severity medium at the extended dotted path and nothing else (no
recursion into that subtree).  At a scalar target leaf, the populated
value yields an `empty_field` issue of severity low exactly when the
emptiness test holds; that test accepts `None`, the empty string, the
empty list and the empty dict, and rejects the integer `0`. -/
theorem C4_completeness_classification :
    ∀ (pop : PyVal) (key : String) (tv : PyVal) (path : String) (v : PyVal),
    (pyContains pop key = .ok false →
      check_field pop key tv path = .ok [missing_field_issue (extend_path path key)]) ∧
    (tv.is_container = false → pyContains pop key = .ok true →
      pyGetItem pop key = .ok v →
      check_field pop key tv path =
        .ok (if is_empty_value v then [empty_field_issue (extend_path path key)] else [])) ∧
    ((missing_field_issue (extend_path path key)).severity = some "medium" ∧
     (empty_field_issue (extend_path path key)).severity = some "low") ∧
    (is_empty_value PyVal.none = true ∧ is_empty_value (.str "") = true ∧
     is_empty_value (.list []) = true ∧ is_empty_value (.dict []) = true ∧
     is_empty_value (.int 0) = false) := by
  intro pop key tv path v
  refine ⟨?_, ?_, ⟨rfl, rfl⟩, by decide⟩
  · intro h
    simp [check_field, h]
  · intro hc h1 h2
    simp [check_field, h1, h2, hc]

theorem C4_witness :
    pyContains (.dict [("z", .int 5)]) "y" = .ok false ∧
    check_field (.dict [("z", .int 5)]) "y" (.str "") "x" =
      .ok [missing_field_issue "x.y"] ∧
    check_field (.dict [("y", .str ""), ("z", .int 0)]) "y" (.str "") "x" =
      .ok [empty_field_issue "x.y"] ∧
    check_field (.dict [("y", .str ""), ("z", .int 0)]) "z" (.int 5) "x" = .ok [] := by
  refine ⟨rfl, ?_, ?_, ?_⟩
  · exact (C4_completeness_classification (.dict [("z", .int 5)]) "y" (.str "") "x"
      PyVal.none).1 rfl
  · exact (C4_completeness_classification (.dict [("y", .str ""), ("z", .int 0)]) "y"
      (.str "") "x" (.str "")).2.1 rfl rfl rfl
  · exact (C4_completeness_classification (.dict [("y", .str ""), ("z", .int 0)]) "z"
      (.int 5) "x" (.int 0)).2.1 rfl rfl rfl

/-- C5: the confidence flagger emits, in metadata order, exactly one
`low_confidence` issue per metadata entry whose confidence is strictly
below the threshold and whose `has_value` is true — and nothing for any
other entry; the emitted issue has severity medium and carries the
numeric confidence. -/
theorem C5_low_confidence_flagging :
    ∀ (threshold : ℚ) (metadata : List (String × FieldMeta)),
    validate_confidence threshold metadata =
      (metadata.filter
        (fun pm => decide (pm.2.confidence < threshold) && pm.2.has_value)).map
        (fun pm => low_confidence_issue threshold pm.2.confidence pm.1) ∧
    (∀ (c : ℚ) (p : String),
      (low_confidence_issue threshold c p).type = some "low_confidence" ∧
      (low_confidence_issue threshold c p).severity = some "medium" ∧
      (low_confidence_issue threshold c p).confidence = some c) := by
  intro threshold metadata
  refine ⟨?_, fun c p => ⟨rfl, rfl, rfl⟩⟩
  induction metadata with
  | nil => rfl
  | cons hd tl ih =>
      obtain ⟨p, meta⟩ := hd
      by_cases h : meta.confidence < threshold ∧ meta.has_value = true
      · have hb : (decide (meta.confidence < threshold) && meta.has_value) = true := by
          simp [h.1, h.2]
        simp [validate_confidence, List.filter, h, hb, ih]
      · have hb : (decide (meta.confidence < threshold) && meta.has_value) = false := by
          rcases not_and_or.mp h with h2 | h2 <;> simp [h2]
        simp [validate_confidence, List.filter, h, hb, ih]

theorem filter_assets_income (schema : PyVal) (l2 : List Issue)
    (h : assets_rule schema = .ok l2) :
    l2.filter (fun i => i.field == some "employment_data.client_1.annual_income") = [] := by
  rcases assets_rule_cases schema l2 h with h2 | ⟨v, h2⟩ <;> subst h2 <;> rfl

theorem filter_zip_dob (schema : PyVal) (l2 : List Issue)
    (h : zip_rule schema = .ok l2) :
    l2.filter (fun i => i.field == some "general_information.client_1.dob") = [] := by
  rcases zip_rule_cases schema l2 h with h2 | ⟨v, h2⟩ <;> subst h2 <;> rfl

/-- C7: the per-path field rules.  The `annual_income` rule fires only
when its path exists: a present, non-null, non-numeric value there
yields exactly one `type_error` (severity high, recorded in the issue
itself) at that path, an absent path yields none.  The `dob` rule:
a present, non-empty string that fails the `YYYY-MM-DD` pattern yields
exactly one `format_error` at that path, a matching one (such as
`1990-10-29`) yields none, and an absent path yields none. -/
theorem C7_field_rules :
    ∀ (schema ed cl gi cl2 v : PyVal) (s : String) (l lf : List Issue),
    (pyContains schema "employment_data" = .ok true →
     pyGetItem schema "employment_data" = .ok ed →
     pyContains ed "client_1" = .ok true →
     pyGetItem ed "client_1" = .ok cl →
     pyDictGet cl "annual_income" = .ok (some v) →
     v.is_none = false →
     v.is_numeric_instance = false →
     validate_types schema = .ok l →
     l.filter (fun i => i.field == some "employment_data.client_1.annual_income") =
       [income_type_error v]) ∧
    (pyContains schema "employment_data" = .ok false →
     validate_types schema = .ok l →
     l.filter (fun i => i.field == some "employment_data.client_1.annual_income") = []) ∧
    (pyContains schema "general_information" = .ok true →
     pyGetItem schema "general_information" = .ok gi →
     pyContains gi "client_1" = .ok true →
     pyGetItem gi "client_1" = .ok cl2 →
     pyDictGet cl2 "dob" = .ok (some (.str s)) →
     s ≠ "" →
     validate_formats schema = .ok lf →
     lf.filter (fun i => i.field == some "general_information.client_1.dob") =
       (if re_full_match date_shape s then [] else [dob_format_error (.str s)])) ∧
    (pyContains schema "general_information" = .ok false →
     validate_formats schema = .ok lf →
     lf.filter (fun i => i.field == some "general_information.client_1.dob") = []) := by
  intro schema ed cl gi cl2 v s l lf
  refine ⟨?_, ?_, ?_, ?_⟩
  · intro h1 h2 h3 h4 h5 h6 h7 hl
    have hi := income_rule_eval schema ed cl v h1 h2 h3 h4 h5
    rw [h6, h7] at hi
    simp only [Bool.false_eq_true, if_false] at hi
    unfold validate_types at hl
    rw [hi] at hl
    cases hA : assets_rule schema with
    | error e => rw [hA] at hl; cases hl
    | ok e2 =>
        rw [hA] at hl
        have hl2 := Except.ok.inj hl
        subst hl2
        rw [List.filter_append, filter_assets_income schema e2 hA]
        rfl
  · intro h1 hl
    have hi := income_rule_absent schema h1
    unfold validate_types at hl
    rw [hi] at hl
    cases hA : assets_rule schema with
    | error e => rw [hA] at hl; cases hl
    | ok e2 =>
        rw [hA] at hl
        have hl2 := Except.ok.inj hl
        subst hl2
        simpa using filter_assets_income schema e2 hA
  · intro h1 h2 h3 h4 h5 h6 hl
    have hd := dob_rule_eval schema gi cl2 s h1 h2 h3 h4 h5 h6
    unfold validate_formats at hl
    rw [hd] at hl
    cases hA : zip_rule schema with
    | error e => rw [hA] at hl; cases hl
    | ok e2 =>
        rw [hA] at hl
        have hl2 := Except.ok.inj hl
        subst hl2
        rw [List.filter_append, filter_zip_dob schema e2 hA]
        cases hm : re_full_match date_shape s <;>
          simp only [hm, Bool.false_eq_true, if_false, if_true, List.append_nil] <;> rfl
  · intro h1 hl
    have hd := dob_rule_absent schema h1
    have hz := zip_rule_absent schema h1
    unfold validate_formats at hl
    rw [hd, hz] at hl
    have hl2 := Except.ok.inj hl
    subst hl2
    rfl

/-- Populated document used to witness C7: a non-numeric income and a
wrongly-formatted date of birth. -/
def c7_schema : PyVal :=
  .dict [("employment_data", .dict [("client_1",
            .dict [("annual_income", .str "fifty-thousand")])]),
         ("general_information", .dict [("client_1",
            .dict [("dob", .str "10/29/1990")])])]

theorem C7_witness :
    PyVal.is_numeric_instance (.str "fifty-thousand") = false ∧
    [income_type_error (.str "fifty-thousand")].filter
        (fun i => i.field == some "employment_data.client_1.annual_income") =
      [income_type_error (.str "fifty-thousand")] ∧
    [dob_format_error (.str "10/29/1990")].filter
        (fun i => i.field == some "general_information.client_1.dob") =
      [dob_format_error (.str "10/29/1990")] := by
  refine ⟨rfl, ?_, ?_⟩
  · exact (C7_field_rules c7_schema
      (.dict [("client_1", .dict [("annual_income", .str "fifty-thousand")])])
      (.dict [("annual_income", .str "fifty-thousand")])
      (.dict [("client_1", .dict [("dob", .str "10/29/1990")])])
      (.dict [("dob", .str "10/29/1990")])
      (.str "fifty-thousand") "10/29/1990"
      [income_type_error (.str "fifty-thousand")]
      [dob_format_error (.str "10/29/1990")]).1 rfl rfl rfl rfl rfl rfl rfl rfl
  · exact (C7_field_rules c7_schema
      (.dict [("client_1", .dict [("annual_income", .str "fifty-thousand")])])
      (.dict [("annual_income", .str "fifty-thousand")])
      (.dict [("client_1", .dict [("dob", .str "10/29/1990")])])
      (.dict [("dob", .str "10/29/1990")])
      (.str "fifty-thousand") "10/29/1990"
      [income_type_error (.str "fifty-thousand")]
      [dob_format_error (.str "10/29/1990")]).2.2.1 rfl rfl rfl rfl rfl
        (by decide) rfl

theorem hist_val_seed (k : String) :
    hist_val [("high", 0), ("medium", 0), ("low", 0)] k = 0 := by
  unfold hist_val
  cases h1 : ("high" == k) <;> cases h2 : ("medium" == k) <;>
    cases h3 : ("low" == k) <;> simp [List.find?, h1, h2, h3]

/-- C8: the statistics aggregator.  `populated_fields + empty_fields`
always equals `total_fields`; `severity_counts` always contains the
keys high, medium and low; for every key its count is the number of
issues whose severity (defaulted to medium when absent) equals that key,
so the counts sum to the total number of issues; and on an empty
metadata map both `population_rate` and `average_confidence` are `0.0`
rather than a division error. -/
theorem C8_statistics_consistency :
    ∀ (metadata : List (String × FieldMeta)) (issues : List Issue),
    (calculate_statistics metadata issues).populated_fields +
        (calculate_statistics metadata issues).empty_fields =
      (calculate_statistics metadata issues).total_fields ∧
    "high" ∈ (calculate_statistics metadata issues).severity_counts.map
      (fun kv => kv.1) ∧
    "medium" ∈ (calculate_statistics metadata issues).severity_counts.map
      (fun kv => kv.1) ∧
    "low" ∈ (calculate_statistics metadata issues).severity_counts.map
      (fun kv => kv.1) ∧
    (∀ k : String,
      hist_val (calculate_statistics metadata issues).severity_counts k =
        (issues.filter (fun i => i.severity.getD "medium" == k)).length) ∧
    hist_total (calculate_statistics metadata issues).severity_counts = issues.length ∧
    (metadata = [] →
      (calculate_statistics metadata issues).population_rate = 0 ∧
      (calculate_statistics metadata issues).average_confidence = 0) := by
  intro metadata issues
  refine ⟨?_, ?_, ?_, ?_, ?_, ?_, ?_⟩
  · simp only [calculate_statistics]
    have hle : (metadata.filter (fun pm => pm.2.has_value)).length ≤ metadata.length :=
      List.length_filter_le _ _
    omega
  · simp only [calculate_statistics]
    exact issue_histograms_snd_keys issues _ "high" (by simp)
  · simp only [calculate_statistics]
    exact issue_histograms_snd_keys issues _ "medium" (by simp)
  · simp only [calculate_statistics]
    exact issue_histograms_snd_keys issues _ "low" (by simp)
  · intro k
    simp only [calculate_statistics]
    rw [issue_histograms_snd_val]
    simp [hist_val_seed]
  · simp only [calculate_statistics]
    rw [issue_histograms_snd_total]
    simp [hist_total]
  · intro h
    subst h
    exact ⟨rfl, rfl⟩

theorem C8_witness :
    ([] : List (String × FieldMeta)) = [] ∧
    (calculate_statistics [] []).population_rate = 0 ∧
    (calculate_statistics [] []).average_confidence = 0 :=
  ⟨rfl, (C8_statistics_consistency [] []).2.2.2.2.2.2 rfl⟩

/-- C10: a boolean at `employment_data.client_1.annual_income` passes
the numeric type rule.  The check is `isinstance(income, (int, float))`
and Python booleans are instances of `int`, so neither `True` nor
`False` produces a `type_error` at that path, even though a boolean is
not a number in the JSON data model. -/
theorem C10_boolean_income_passes :
    ∀ (b : Bool) (schema ed cl : PyVal) (l : List Issue),
    pyContains schema "employment_data" = .ok true →
    pyGetItem schema "employment_data" = .ok ed →
    pyContains ed "client_1" = .ok true →
    pyGetItem ed "client_1" = .ok cl →
    pyDictGet cl "annual_income" = .ok (some (.bool b)) →
    validate_types schema = .ok l →
    (PyVal.is_numeric_instance (.bool b) = true ∧
     l.filter (fun i => i.field == some "employment_data.client_1.annual_income") = []) := by
  intro b schema ed cl l h1 h2 h3 h4 h5 hl
  refine ⟨rfl, ?_⟩
  have hi := income_rule_eval schema ed cl (.bool b) h1 h2 h3 h4 h5
  simp only [PyVal.is_none, PyVal.is_numeric_instance, Bool.false_eq_true, if_false,
    if_true] at hi
  unfold validate_types at hl
  rw [hi] at hl
  cases hA : assets_rule schema with
  | error e => rw [hA] at hl; cases hl
  | ok e2 =>
      rw [hA] at hl
      have hl2 := Except.ok.inj hl
      subst hl2
      simpa using filter_assets_income schema e2 hA

theorem C10_witness :
    validate_types
        (.dict [("employment_data", .dict [("client_1",
           .dict [("annual_income", .bool true)])])]) = .ok [] ∧
    ([] : List Issue).filter
        (fun i => i.field == some "employment_data.client_1.annual_income") = [] := by
  refine ⟨rfl, ?_⟩
  exact (C10_boolean_income_passes true
    (.dict [("employment_data", .dict [("client_1",
       .dict [("annual_income", .bool true)])])])
    (.dict [("client_1", .dict [("annual_income", .bool true)])])
    (.dict [("annual_income", .bool true)]) [] rfl rfl rfl rfl rfl rfl).2

/-- An explicit store of the Python list objects that `validate`
allocates and mutates: one cell per list object, addressed by index.
The populated document, the target document and the metadata are only
ever read by the source (no mutating operation on them appears in
`validate` or its helpers), so they enter this model as pure values; the
issue lists are the objects whose identity and in-place mutation the
ownership claim is about. -/
structure IssueStore where
  cells : List (List Issue)

/-- Allocation of a fresh list object (a `[]` literal, a list
comprehension, or the result of `+`): appended at the next free
address. -/
def alloc (st : IssueStore) (xs : List Issue) : IssueStore × Nat :=
  ({ cells := st.cells ++ [xs] }, st.cells.length)

/-- Reading the list object at an address. -/
def read_cell (st : IssueStore) (a : Nat) : List Issue :=
  (st.cells[a]?).getD []

/-- Python `lst.extend(xs)` on the list object at address `a`: in-place
mutation of that cell, leaving every other cell untouched. -/
def extend_cell (st : IssueStore) (a : Nat) (xs : List Issue) : IssueStore :=
  { cells := st.cells.set a (read_cell st a ++ xs) }

/-- `Validator.validate` with its list operations made explicit, in
source order: `validation_errors = []` and `additional_issues = []`
allocate fresh cells, the five passes `extend` those two cells, and
`all_issues = existing_issues + validation_errors + additional_issues`
allocates a new cell from three reads (Python `+` copies; it does not
extend its left operand).  Returns the store together with the addresses
of `validation_errors` and `all_issues`. -/
def validate_heap (st : IssueStore) (populated_schema target_schema : PyVal)
    (metadata : List (String × FieldMeta)) (existing_addr : Nat) :
    Except PyErr (IssueStore × Nat × Nat) :=
  let p1 := alloc st []
  let p2 := alloc p1.1 []
  let st3 := extend_cell p2.1 p1.2
    ((validate_schema_structure populated_schema target_schema).map structure_error_issue)
  match validate_types populated_schema with
  | .error e => .error e
  | .ok type_errors =>
    let st4 := extend_cell st3 p1.2 type_errors
    match validate_formats populated_schema with
    | .error e => .error e
    | .ok format_errors =>
      let st5 := extend_cell st4 p1.2 format_errors
      let st6 := extend_cell st5 p2.2
        (validate_confidence require_manual_review_threshold metadata)
      match check_completeness populated_schema target_schema with
      | .error e => .error e
      | .ok completeness_issues =>
        let st7 := extend_cell st6 p2.2 completeness_issues
        let p8 := alloc st7
          (read_cell st7 existing_addr ++ read_cell st7 p1.2 ++ read_cell st7 p2.2)
        .ok (p8.1, p1.2, p8.2)

theorem getD_append_fst (l : List (List Issue)) (x y : List Issue) :
    ((l ++ [x, y])[l.length]?).getD [] = x := by
  rw [List.getElem?_append_right (Nat.le_refl _)]
  simp

theorem getD_append_snd (l : List (List Issue)) (x y : List Issue) :
    ((l ++ [x, y])[l.length + 1]?).getD [] = y := by
  rw [List.getElem?_append_right (Nat.le_succ_of_le (Nat.le_refl _))]
  simp

theorem set_append_fst (l : List (List Issue)) (x y v : List Issue) :
    (l ++ [x, y]).set l.length v = l ++ [v, y] := by
  induction l with
  | nil => rfl
  | cons b bs ih => simp [List.set, ih]

theorem set_append_snd (l : List (List Issue)) (x y v : List Issue) :
    (l ++ [x, y]).set (l.length + 1) v = l ++ [x, v] := by
  induction l with
  | nil => rfl
  | cons b bs ih => simp [List.set, ih]

theorem extend_fst_cells (A : IssueStore) (l : List (List Issue)) (x y v : List Issue)
    (hA : A.cells = l ++ [x, y]) :
    (extend_cell A l.length v).cells = l ++ [x ++ v, y] := by
  show A.cells.set l.length (read_cell A l.length ++ v) = l ++ [x ++ v, y]
  unfold read_cell
  rw [hA, getD_append_fst, set_append_fst]

theorem extend_snd_cells (A : IssueStore) (l : List (List Issue)) (x y v : List Issue)
    (hA : A.cells = l ++ [x, y]) :
    (extend_cell A (l.length + 1) v).cells = l ++ [x, y ++ v] := by
  show A.cells.set (l.length + 1) (read_cell A (l.length + 1) ++ v) = l ++ [x, y ++ v]
  unfold read_cell
  rw [hA, getD_append_snd, set_append_snd]

theorem heap_prefix_cells (st : IssueStore) (strs ty fm conf ci : List Issue) :
    (extend_cell (extend_cell (extend_cell (extend_cell (extend_cell
        (alloc (alloc st []).1 []).1 (alloc st []).2 strs)
        (alloc st []).2 ty) (alloc st []).2 fm)
        (alloc (alloc st []).1 []).2 conf)
        (alloc (alloc st []).1 []).2 ci).cells =
      st.cells ++ [strs ++ ty ++ fm, conf ++ ci] := by
  rw [show (alloc (alloc st []).1 []).2 = st.cells.length + 1 by simp [alloc]]
  rw [show (alloc st []).2 = st.cells.length from rfl]
  have e2 : (alloc (alloc st []).1 []).1.cells = st.cells ++ [[], []] := by
    simp [alloc]
  have e3 := extend_fst_cells _ st.cells [] [] strs e2
  have e4 := extend_fst_cells _ st.cells ([] ++ strs) [] ty e3
  have e5 := extend_fst_cells _ st.cells (([] ++ strs) ++ ty) [] fm e4
  have e6 := extend_snd_cells _ st.cells ((([] ++ strs) ++ ty) ++ fm) [] conf e5
  have e7 := extend_snd_cells _ st.cells ((([] ++ strs) ++ ty) ++ fm) ([] ++ conf) ci e6
  simpa using e7

theorem read_cell_append_fst (l : List (List Issue)) (x y : List Issue) :
    read_cell ⟨l ++ [x, y]⟩ l.length = x := by
  show ((l ++ [x, y])[l.length]?).getD [] = x
  exact getD_append_fst l x y

theorem read_cell_append_snd (l : List (List Issue)) (x y : List Issue) :
    read_cell ⟨l ++ [x, y]⟩ (l.length + 1) = y := by
  show ((l ++ [x, y])[l.length + 1]?).getD [] = y
  exact getD_append_snd l x y

theorem validate_heap_ok_shape (st : IssueStore) (p t : PyVal)
    (m : List (String × FieldMeta)) (a : Nat) (st2 : IssueStore) (ve alla : Nat)
    (h : validate_heap st p t m a = .ok (st2, ve, alla)) :
    ∃ ty fm ci, validate_types p = .ok ty ∧ validate_formats p = .ok fm ∧
      check_completeness p t = .ok ci ∧
      ve = st.cells.length ∧ alla = st.cells.length + 2 ∧
      st2.cells =
        st.cells ++
          [(validate_schema_structure p t).map structure_error_issue ++ ty ++ fm,
           validate_confidence require_manual_review_threshold m ++ ci,
           read_cell
               ⟨st.cells ++
                 [(validate_schema_structure p t).map structure_error_issue ++ ty ++ fm,
                  validate_confidence require_manual_review_threshold m ++ ci]⟩ a ++
             ((validate_schema_structure p t).map structure_error_issue ++ ty ++ fm) ++
             (validate_confidence require_manual_review_threshold m ++ ci)] := by
  unfold validate_heap at h
  cases hty : validate_types p with
  | error e => rw [hty] at h; simp at h
  | ok ty =>
    rw [hty] at h
    cases hfm : validate_formats p with
    | error e => rw [hfm] at h; simp at h
    | ok fm =>
      rw [hfm] at h
      cases hci : check_completeness p t with
      | error e => rw [hci] at h; simp at h
      | ok ci =>
        rw [hci] at h
        dsimp only at h
        have h2 := Except.ok.inj h
        injection h2 with hS h3
        injection h3 with hV hA
        subst hS
        subst hV
        subst hA
        have e7 :
            (extend_cell (extend_cell (extend_cell (extend_cell (extend_cell
                (alloc (alloc st []).1 []).1 (alloc st []).2
                ((validate_schema_structure p t).map structure_error_issue))
                (alloc st []).2 ty) (alloc st []).2 fm)
                (alloc (alloc st []).1 []).2
                (validate_confidence require_manual_review_threshold m))
                (alloc (alloc st []).1 []).2 ci) =
              (⟨st.cells ++
                 [(validate_schema_structure p t).map structure_error_issue ++ ty ++ fm,
                  validate_confidence require_manual_review_threshold m ++ ci]⟩ :
                IssueStore) :=
          congrArg IssueStore.mk (heap_prefix_cells st _ ty fm _ ci)
        refine ⟨ty, fm, ci, rfl, rfl, rfl, rfl, ?_, ?_⟩
        · show (extend_cell _ _ _).cells.length = st.cells.length + 2
          rw [heap_prefix_cells]
          simp
        · show (extend_cell _ _ _).cells ++ [_] = _
          rw [e7]
          rw [show (alloc (alloc st []).1 []).2 = st.cells.length + 1 by simp [alloc]]
          rw [show (alloc st []).2 = st.cells.length from rfl]
          rw [read_cell_append_fst, read_cell_append_snd]
          simp

/-- C9: `validate` mutates none of its inputs.  The two documents and
the metadata are only ever read — no mutating operation on them appears
anywhere in the source — so they enter the model as pure values;
`validate_heap` replays, in source order, exactly the list-object
allocations and in-place `extend` calls `validate` performs on an
explicit store.  Every `extend` targets one of the two cells freshly
allocated by the call, so every cell that existed before the call — in
particular the caller's `existing_issues` list, at any address — reads
back unchanged afterwards; both returned lists live at fresh addresses
(`all_issues` is a new list built by `+`, not an in-place extension of
`existing_issues`); and the fresh cells' contents agree with the pure
`validate`. -/
theorem C9_no_input_mutation :
    ∀ (st : IssueStore) (p t : PyVal) (m : List (String × FieldMeta)) (a : Nat)
      (st2 : IssueStore) (ve alla : Nat),
    validate_heap st p t m a = .ok (st2, ve, alla) →
    ((∀ i, i < st.cells.length → read_cell st2 i = read_cell st i) ∧
     st.cells.length ≤ ve ∧ st.cells.length ≤ alla ∧
     (∀ r, a < st.cells.length →
       validate p t m (read_cell st a) = .ok r →
       read_cell st2 ve = r.validation_errors ∧ read_cell st2 alla = r.all_issues)) := by
  intro st p t m a st2 ve alla h
  obtain ⟨ty, fm, ci, hty, hfm, hci, hve, halla, hcells⟩ :=
    validate_heap_ok_shape st p t m a st2 ve alla h
  refine ⟨?_, ?_, ?_, ?_⟩
  · intro i hi
    unfold read_cell
    rw [hcells, List.getElem?_append]
    simp [hi]
  · rw [hve]
  · rw [halla]; omega
  · intro r ha hr
    rw [validate_ok_iff] at hr
    obtain ⟨ty0, fm0, ci0, hty0, hfm0, hci0, hr0⟩ := hr
    have hty1 : ty = ty0 := (Except.ok.inj (hty0.symm.trans hty)).symm
    have hfm1 : fm = fm0 := (Except.ok.inj (hfm0.symm.trans hfm)).symm
    have hci1 : ci = ci0 := (Except.ok.inj (hci0.symm.trans hci)).symm
    subst hty1
    subst hfm1
    subst hci1
    subst hr0
    constructor
    · unfold read_cell
      rw [hcells, hve, List.getElem?_append_right (Nat.le_refl _)]
      simp
    · unfold read_cell
      rw [hcells, halla,
        List.getElem?_append_right (Nat.le_add_right st.cells.length 2)]
      simp
      unfold read_cell
      rw [List.getElem?_append]
      simp [ha]

/-- A pre-existing caller-owned issue list cell used to witness C9. -/
def c9_issue : Issue := { type := some "llm_flag", severity := some "low" }

theorem C9_witness :
    validate_heap ⟨[[c9_issue]]⟩ (.dict []) (.dict []) [] 0 =
      .ok (⟨[[c9_issue], [], [], [c9_issue]]⟩, 1, 3) ∧
    read_cell ⟨[[c9_issue], [], [], [c9_issue]]⟩ 0 = read_cell ⟨[[c9_issue]]⟩ 0 := by
  refine ⟨rfl, ?_⟩
  exact (C9_no_input_mutation ⟨[[c9_issue]]⟩ (.dict []) (.dict []) [] 0
    ⟨[[c9_issue], [], [], [c9_issue]]⟩ 1 3 rfl).1 0 (by decide)
